import Mathlib

/-!
Shallow embedding of `src/src/scenejs/boundary/boundingBox.js`
(SceneJS.BoundingBox): extent storage, the three-level memoization of the
world-space box, the two-stage visibility gate and LOD threshold selection.

Numbers are modelled as `Int`.  A JavaScript field that may be
`null`/`undefined` is modelled as an `Option`.  The `_memoLevel` field is
never assigned by the constructor or by `_init`, so after construction it is
`undefined`; in JavaScript `undefined == 0` and `undefined < 2` are both
`false`, which is captured by `undefEq`/`undefLt` below returning `false`
on `none`.

The collaborator modules (model-transform, instancing, locality, frustum
and the point/box math) are not part of this source file; a traversal
receives them as the explicit `Env` record of functions, exactly at the
call shapes the source uses (each test receives the node's possibly-null
`_viewBox`; the point transform receives the possibly-null `_objectCoords`).
-/

namespace SceneJS

/-- A 3-D point, as the three-element arrays used by the source. -/
abbrev Point3 := Int × Int × Int

/-- An axis-aligned box `{min : [x,y,z], max : [x,y,z]}` as built at
lines 309-312 of the source and by `SceneJS_math_Box3().fromPoints`. -/
structure Box3 where
  lo : Point3
  hi : Point3
deriving DecidableEq, Repr

/-- Result of `SceneJS_frustumModule.testAxisBoxIntersection`. -/
inductive FrustumResult where
  | outsideFrustum
  | insideFrustum
  | intersectFrustum
deriving DecidableEq, Repr

/-- The two fatal configuration failures raised by `_init` (both are
`SceneJS.NodeConfigExpectedException`, distinguished by their message):
`configMismatch` is "levels property should have a value for each child
node", `configOrder` is "levels property should be an ascending list of
unique values". -/
inductive ConfigError where
  | configMismatch
  | configOrder
deriving DecidableEq, Repr

/-- Decidable equality for `Except` results, so the embedding can be
evaluated on concrete inputs. -/
def exceptDecEq {ε α : Type} [DecidableEq ε] [DecidableEq α] :
    DecidableEq (Except ε α)
  | .error a, .error b =>
    if h : a = b then .isTrue (by rw [h])
    else .isFalse (fun hc => h (by injection hc))
  | .error _, .ok _ => .isFalse (fun hc => Except.noConfusion hc)
  | .ok _, .error _ => .isFalse (fun hc => Except.noConfusion hc)
  | .ok a, .ok b =>
    if h : a = b then .isTrue (by rw [h])
    else .isFalse (fun hc => h (by injection hc))

instance {ε α : Type} [DecidableEq ε] [DecidableEq α] : DecidableEq (Except ε α) :=
  exceptDecEq

/-- The configuration object consumed by `_init` (and the constructor).
`none` models an absent field; `params.xmin || 0` is `Option.getD · 0`
(a present `0` is also falsy in JavaScript, and also yields `0`). -/
structure Params where
  xmin : Option Int := none
  ymin : Option Int := none
  zmin : Option Int := none
  xmax : Option Int := none
  ymax : Option Int := none
  zmax : Option Int := none
  levels : Option (List Int) := none
deriving DecidableEq, Repr

/-- The boundary object consumed by `setBoundary` / produced by
`getBoundary`. -/
structure Boundary where
  xmin : Option Int := none
  ymin : Option Int := none
  zmin : Option Int := none
  xmax : Option Int := none
  ymax : Option Int := none
  zmax : Option Int := none
deriving DecidableEq, Repr

/-- The mutable fields of a `SceneJS.BoundingBox` node touched by the
boundary logic, plus the two construction-time constants it reads:
`fixedParams` (`this._fixedParams`) and `numChildren`
(`this._children.length`). `memoLevel = none` models the `undefined`
`this._memoLevel` of a freshly constructed node. -/
structure BBoxState where
  xmin : Int
  ymin : Int
  zmin : Int
  xmax : Int
  ymax : Int
  zmax : Int
  levels : Option (List Int)
  objectCoords : Option (List Point3)
  viewBox : Option Box3
  memoLevel : Option Nat
  fixedParams : Bool
  numChildren : Nat
deriving DecidableEq, Repr

/-- JavaScript `m == k` where `m` may be `undefined`: `undefined == 0`
is `false`. -/
def undefEq (m : Option Nat) (k : Nat) : Bool :=
  match m with
  | some n => n == k
  | none => false

/-- JavaScript `m < k` where `m` may be `undefined`: `undefined < 2`
is `false` (the comparison goes through `NaN`). -/
def undefLt (m : Option Nat) (k : Nat) : Bool :=
  match m with
  | some n => n < k
  | none => false

/-- The field state installed by the constructor body (lines 75-84):
all extents `0`, `_levels` null, no cached coords or box, `_memoLevel`
left `undefined`. -/
def initialState (fixedParams : Bool) (numChildren : Nat) : BBoxState :=
  { xmin := 0, ymin := 0, zmin := 0, xmax := 0, ymax := 0, zmax := 0,
    levels := none, objectCoords := none, viewBox := none,
    memoLevel := none, fixedParams := fixedParams, numChildren := numChildren }

/-- The adjacent-pair scan of `_init` (lines 272-277): `true` iff no `i`
has `levels[i-1] >= levels[i]`. -/
def levelsOrdered : List Int → Bool
  | a :: b :: rest => decide (a < b) && levelsOrdered (b :: rest)
  | _ => true

/-- The extent installation at the top of `_init` (lines 260-265). -/
def initExtents (s : BBoxState) (ps : Params) : BBoxState :=
  { s with
    xmin := ps.xmin.getD 0, ymin := ps.ymin.getD 0, zmin := ps.zmin.getD 0,
    xmax := ps.xmax.getD 0, ymax := ps.ymax.getD 0, zmax := ps.zmax.getD 0 }

/-- `SceneJS.BoundingBox.prototype._init` (lines 259-280).  Installs the
six extents, then validates and installs `levels` when present.
Modelled from the spec: `SceneJS_errorModule.fatalError` is not part of
this source file; per the spec it aborts the enclosing build/traversal,
which is `Except.error` here. -/
def init (s : BBoxState) (ps : Params) : Except ConfigError BBoxState :=
  match ps.levels with
  | none => .ok (initExtents s ps)
  | some ls =>
    if ls.length ≠ s.numChildren then
      .error .configMismatch
    else if !levelsOrdered ls then
      .error .configOrder
    else
      .ok { initExtents s ps with levels := some ls }

/-- The constructor `SceneJS.BoundingBox` (lines 72-88): field defaults,
then `_init(this._getParams())` when the parameters are fixed.  Note that
neither path assigns `_memoLevel`. -/
def newBoundingBox (fixedParams : Bool) (ps : Params) (numChildren : Nat) :
    Except ConfigError BBoxState :=
  let s := initialState fixedParams numChildren
  if fixedParams then init s ps else .ok s

/-- `setXMin` (lines 99-103). -/
def setXMin (s : BBoxState) (v : Int) : BBoxState :=
  { s with xmin := v, memoLevel := some 0 }

/-- `setYMin` (lines 122-126). -/
def setYMin (s : BBoxState) (v : Int) : BBoxState :=
  { s with ymin := v, memoLevel := some 0 }

/-- `setZMin` (lines 144-148). -/
def setZMin (s : BBoxState) (v : Int) : BBoxState :=
  { s with zmin := v, memoLevel := some 0 }

/-- `setXMax` (lines 166-170). -/
def setXMax (s : BBoxState) (v : Int) : BBoxState :=
  { s with xmax := v, memoLevel := some 0 }

/-- `setYMax` (lines 188-192). -/
def setYMax (s : BBoxState) (v : Int) : BBoxState :=
  { s with ymax := v, memoLevel := some 0 }

/-- `setZMax` (lines 210-214). -/
def setZMax (s : BBoxState) (v : Int) : BBoxState :=
  { s with zmax := v, memoLevel := some 0 }

/-- `setBoundary` (lines 231-240). -/
def setBoundary (s : BBoxState) (b : Boundary) : BBoxState :=
  { s with
    xmin := b.xmin.getD 0, ymin := b.ymin.getD 0, zmin := b.zmin.getD 0,
    xmax := b.xmax.getD 0, ymax := b.ymax.getD 0, zmax := b.zmax.getD 0,
    memoLevel := some 0 }

/-- `getBoundary` (lines 247-256). -/
def getBoundary (s : BBoxState) : Boundary :=
  { xmin := some s.xmin, ymin := some s.ymin, zmin := some s.zmin,
    xmax := some s.xmax, ymax := some s.ymax, zmax := some s.zmax }

/-- The model transform as returned by
`SceneJS_modelTransformModule.getTransform()`; the matrix itself is folded
into `Env.transformBox`. -/
structure ModelTransform where
  identity : Bool
  fixed : Bool

/-- The collaborator modules a traversal consults, passed explicitly.
`transformBox` is the composite
`new SceneJS_math_Box3().fromPoints(SceneJS_math_transformPoints3(matrix, coords))`
applied to whatever `this._objectCoords` holds (possibly null); the
locality/frustum functions likewise receive the possibly-null
`this._viewBox`.  `getParams` models `this._getParams(data)` for
dynamically configured nodes. -/
structure Env where
  transform : ModelTransform
  instancing : Bool
  getParams : Params
  transformBox : Option (List Point3) → Box3
  outerRadius : Option Box3 → Bool
  innerRadius : Option Box3 → Bool
  frustum : Option Box3 → FrustumResult
  projectedSize : Option Box3 → Int

/-- The eight object-space corners built at lines 295-304. -/
def objectCorners (s : BBoxState) : List Point3 :=
  [(s.xmin, s.ymin, s.zmin),
   (s.xmax, s.ymin, s.zmin),
   (s.xmax, s.ymax, s.zmin),
   (s.xmin, s.ymax, s.zmin),
   (s.xmin, s.ymin, s.zmax),
   (s.xmax, s.ymin, s.zmax),
   (s.xmax, s.ymax, s.zmax),
   (s.xmin, s.ymax, s.zmax)]

/-- The `_memoLevel == 0` initialization branch of `_render`
(lines 284-315): re-read the configuration when the parameters are
dynamic (or bump the memo level when fixed), then either cache the eight
object-space corners (non-identity transform) or set the box directly
from the extents and jump to memo level 2 (identity transform). -/
def updateBoxPhase1 (env : Env) (s : BBoxState) : Except ConfigError BBoxState :=
  if undefEq s.memoLevel 0 then
    match (if !s.fixedParams then init s env.getParams
           else .ok { s with memoLevel := some 1 }) with
    | .error e => .error e
    | .ok sInit =>
      if !env.transform.identity then
        .ok { sInit with objectCoords := some (objectCorners sInit) }
      else
        .ok { sInit with
              viewBox := some ⟨(sInit.xmin, sInit.ymin, sInit.zmin),
                               (sInit.xmax, sInit.ymax, sInit.zmax)⟩,
              memoLevel := some 2 }
  else
    .ok s

/-- The `_memoLevel < 2` recomputation branch of `_render`
(lines 317-328): rebuild the box from the cached corners through the
current transform; when the transform is fixed, the memo level is 1 and
instancing is not active, discard the corners and freeze at memo
level 2. -/
def updateBoxPhase2 (env : Env) (s : BBoxState) : BBoxState :=
  if undefLt s.memoLevel 2 then
    if env.transform.fixed && undefEq s.memoLevel 1 && !env.instancing then
      { s with viewBox := some (env.transformBox s.objectCoords),
               objectCoords := none, memoLevel := some 2 }
    else
      { s with viewBox := some (env.transformBox s.objectCoords) }
  else
    s

/-- The box-maintenance part of `_render` (lines 284-328): the
`_memoLevel == 0` initialization branch followed by the `_memoLevel < 2`
recomputation branch. -/
def renderUpdate (env : Env) (s : BBoxState) : Except ConfigError BBoxState :=
  match updateBoxPhase1 env s with
  | .error e => .error e
  | .ok s1 => .ok (updateBoxPhase2 env s1)

/-- What a traversal did with the children. -/
inductive RenderAction where
  | renderedChild (i : Nat)
  | renderedAll
  | renderedNone
deriving DecidableEq, Repr

/-- The outcome of the visibility/LOD part of `_render`: the action taken
and the box value (`this._viewBox`) handed to the locality and frustum
collaborators. -/
structure Dispatch where
  action : RenderAction
  tested : Option Box3
deriving DecidableEq, Repr

/-- The descending threshold scan at lines 337-343:
`for (i = levels.length - 1; i >= 0; i--) if (levels[i] <= size) return i`.
The argument counts how many low indices remain to scan. -/
def lodSelectAux (ls : List Int) (size : Int) : Nat → Option Nat
  | 0 => none
  | n + 1 => if ls.getD n 0 ≤ size then some n else lodSelectAux ls size n

/-- The LOD selector: the largest index whose threshold is `<= size`,
scanning downward from the last index. -/
def lodSelect (ls : List Int) (size : Int) : Option Nat :=
  lodSelectAux ls size ls.length

/-- The visibility/LOD part of `_render` (lines 329-361): outer-radius
test, inner-radius test, frustum classification, then LOD selection when
`_levels` is non-null, else `_renderNodes`. -/
def renderDispatch (env : Env) (s : BBoxState) : Dispatch :=
  { tested := s.viewBox
    action :=
      if env.outerRadius s.viewBox then
        if env.innerRadius s.viewBox then
          match env.frustum s.viewBox with
          | .intersectFrustum | .insideFrustum =>
            match s.levels with
            | some ls =>
              match lodSelect ls (env.projectedSize s.viewBox) with
              | some i => .renderedChild i
              | none => .renderedNone
            | none => .renderedAll
          | .outsideFrustum => .renderedNone
        else
          .renderedAll
      else
        .renderedNone }

/-- `SceneJS.BoundingBox.prototype._render` (lines 283-362): box
maintenance, then the visibility gate and traversal dispatch. -/
def render (env : Env) (s : BBoxState) : Except ConfigError (BBoxState × Dispatch) :=
  match renderUpdate env s with
  | .error e => .error e
  | .ok s2 => .ok (s2, renderDispatch env s2)

/-- A sequence of traversals, one per environment, threading the node
state; stops at the first fatal configuration error. -/
def renderIter (s : BBoxState) : List Env → Except ConfigError BBoxState
  | [] => .ok s
  | e :: rest =>
    match render e s with
    | .error err => .error err
    | .ok (s2, _) => renderIter s2 rest

/-- A collaborator environment whose tests return constant values, used
to exercise the traversal on concrete inputs. -/
def sampleEnv (ident fixedT inst : Bool) (ps : Params)
    (outerB innerB : Bool) (fr : FrustumResult) (size : Int) : Env :=
  { transform := { identity := ident, fixed := fixedT }
    instancing := inst
    getParams := ps
    transformBox := fun _ => ⟨(0, 0, 0), (1, 1, 1)⟩
    outerRadius := fun _ => outerB
    innerRadius := fun _ => innerB
    frustum := fun _ => fr
    projectedSize := fun _ => size }

/-- A node already at memo level 2 (FULL) holding the documentation
example thresholds `[10, 200, 400, 600]`. -/
def fullState : BBoxState :=
  { initialState true 4 with
    memoLevel := some 2
    viewBox := some ⟨(0, 0, 0), (2, 2, 2)⟩
    levels := some [10, 200, 400, 600] }

/-- A fixed-parameter node whose memo level has been reset to 0. -/
def resetFixedState : BBoxState :=
  { initialState true 0 with memoLevel := some 0 }

/-- The state produced by one traversal of `resetFixedState` under an
identity transform: memo level 2, box taken from the extents. -/
def fullViaIdentity : BBoxState :=
  { initialState true 0 with
    memoLevel := some 2
    viewBox := some ⟨(0, 0, 0), (0, 0, 0)⟩ }

/-- A dynamic-parameter node whose memo level is 0. -/
def resetDynState : BBoxState :=
  { initialState false 0 with memoLevel := some 0 }

/-- The state after one traversal of `resetDynState` under an identity
transform whose dynamic parameters set `xmin = 1`: memo level 2, so
later traversals no longer re-read the dynamic parameters. -/
def dynFrozenState : BBoxState :=
  { initialState false 0 with
    xmin := 1
    memoLevel := some 2
    viewBox := some ⟨(1, 0, 0), (0, 0, 0)⟩ }

/-- The state after one traversal of `resetDynState` under a non-identity,
non-static transform whose dynamic parameters set `xmin = 5`: the memo
level is still 0, the corners are cached and the box came through the
transform collaborator. -/
def dynRereadState : BBoxState :=
  { initialState false 0 with
    xmin := 5
    memoLevel := some 0
    objectCoords := some [(5, 0, 0), (0, 0, 0), (0, 0, 0), (5, 0, 0),
                          (5, 0, 0), (0, 0, 0), (0, 0, 0), (5, 0, 0)]
    viewBox := some ⟨(0, 0, 0), (1, 1, 1)⟩ }

/-- A freshly constructed fixed-parameter node with two children and
thresholds `[5, 10]`; its memo level is still `undefined` (`none`). -/
def freshState : BBoxState :=
  { initialState true 2 with levels := some [5, 10] }

/-- Identity transform, no instancing, everything visible, size 250. -/
def lodEnv : Env := sampleEnv true true false {} true true .insideFrustum 250

/-- Identity transform with instancing active. -/
def idInstancingEnv : Env := sampleEnv true true true {} true true .insideFrustum 0

/-- Identity transform, dynamic parameters giving `xmin = 1`. -/
def dynIdEnvA : Env := sampleEnv true false false { xmin := some 1 } true true .insideFrustum 0

/-- Identity transform, dynamic parameters giving `xmin = 5`. -/
def dynIdEnvB : Env := sampleEnv true false false { xmin := some 5 } true true .insideFrustum 0

/-- Non-identity, non-static transform, dynamic parameters giving
`xmin = 5`. -/
def dynMovingEnv : Env := sampleEnv false false false { xmin := some 5 } true true .insideFrustum 0

/-- An environment whose outer-radius test fails. -/
def outerFailEnv : Env := sampleEnv true true false {} false true .insideFrustum 0

/-- An environment whose outer-radius test passes, inner-radius test
fails, and frustum test reports OUTSIDE. -/
def stagingEnv : Env := sampleEnv true true false {} true false .outsideFrustum 0

/-! ## Helper lemmas -/

/-- The JavaScript-style equality against a possibly-undefined memo
level holds exactly when the level is defined and equal. -/
theorem undefEq_true_iff (m : Option Nat) (k : Nat) :
    undefEq m k = true ↔ m = some k := by
  cases m with
  | none => simp [undefEq]
  | some n => simp [undefEq]

/-- The descending scan returns `none` exactly when every threshold
below the scan bound exceeds the projected size. -/
theorem lodSelectAux_eq_none_iff (ls : List Int) (size : Int) (n : Nat) :
    lodSelectAux ls size n = none ↔ ∀ j, j < n → size < ls.getD j 0 := by
  induction n with
  | zero => simp [lodSelectAux]
  | succ n ih =>
    rw [lodSelectAux]
    by_cases h : ls.getD n 0 ≤ size
    · rw [if_pos h]
      constructor
      · exact fun hc => Option.noConfusion hc
      · intro hall
        exact absurd (hall n (Nat.lt_succ_self n)) (not_lt.mpr h)
    · rw [if_neg h, ih]
      constructor
      · intro hall j hj
        rcases Nat.lt_succ_iff_lt_or_eq.mp hj with hj1 | rfl
        · exact hall j hj1
        · exact not_le.mp h
      · exact fun hall j hj => hall j (Nat.lt_succ_of_lt hj)

/-- The descending scan returns `some i` exactly when `i` is the largest
index below the scan bound whose threshold does not exceed the projected
size. -/
theorem lodSelectAux_eq_some_iff (ls : List Int) (size : Int) (n i : Nat) :
    lodSelectAux ls size n = some i ↔
      i < n ∧ ls.getD i 0 ≤ size ∧
      ∀ j, j < n → ls.getD j 0 ≤ size → j ≤ i := by
  induction n with
  | zero => simp [lodSelectAux]
  | succ n ih =>
    rw [lodSelectAux]
    by_cases h : ls.getD n 0 ≤ size
    · rw [if_pos h]
      constructor
      · intro hsome
        have hni : n = i := Option.some.inj hsome
        subst hni
        exact ⟨Nat.lt_succ_self n, h, fun j hj _ => Nat.lt_succ_iff.mp hj⟩
      · rintro ⟨hi, _, hmax⟩
        have h1 : n ≤ i := hmax n (Nat.lt_succ_self n) h
        have h2 : i ≤ n := Nat.lt_succ_iff.mp hi
        rw [Nat.le_antisymm h2 h1]
    · rw [if_neg h, ih]
      constructor
      · rintro ⟨hi, hle, hmax⟩
        refine ⟨Nat.lt_succ_of_lt hi, hle, fun j hj hjle => ?_⟩
        rcases Nat.lt_succ_iff_lt_or_eq.mp hj with hj1 | rfl
        · exact hmax j hj1 hjle
        · exact absurd hjle h
      · rintro ⟨hi, hle, hmax⟩
        have hin : i ≠ n := fun heq => h (heq ▸ hle)
        refine ⟨Nat.lt_of_le_of_ne (Nat.lt_succ_iff.mp hi) hin, hle,
          fun j hj hjle => hmax j (Nat.lt_succ_of_lt hj) hjle⟩

/-- The LOD selector picks exactly the largest index whose threshold is
at most the projected size. -/
theorem lodSelect_eq_some_iff (ls : List Int) (size : Int) (i : Nat) :
    lodSelect ls size = some i ↔
      i < ls.length ∧ ls.getD i 0 ≤ size ∧
      ∀ j, j < ls.length → ls.getD j 0 ≤ size → j ≤ i :=
  lodSelectAux_eq_some_iff ls size ls.length i

/-- The LOD selector picks no child exactly when the projected size is
below every threshold. -/
theorem lodSelect_eq_none_iff (ls : List Int) (size : Int) :
    lodSelect ls size = none ↔ ∀ j, j < ls.length → size < ls.getD j 0 :=
  lodSelectAux_eq_none_iff ls size ls.length

/-- The adjacent-pair scan of `_init` accepts a list exactly when every
adjacent pair is strictly increasing. -/
theorem levelsOrdered_iff (ls : List Int) :
    levelsOrdered ls = true ↔
      ∀ i, i + 1 < ls.length → ls.getD i 0 < ls.getD (i + 1) 0 := by
  induction ls with
  | nil => simp [levelsOrdered]
  | cons a t ih =>
    cases t with
    | nil => simp [levelsOrdered]
    | cons b r =>
      rw [show levelsOrdered (a :: b :: r) = (decide (a < b) && levelsOrdered (b :: r))
          from rfl]
      rw [Bool.and_eq_true, decide_eq_true_eq, ih]
      constructor
      · rintro ⟨hab, hrest⟩ i hi
        match i with
        | 0 => simpa using hab
        | Nat.succ i =>
          have h2 : i + 1 < (b :: r).length := by
            simp only [List.length_cons] at hi ⊢
            omega
          simpa [List.getD_cons_succ] using hrest i h2
      · intro hall
        constructor
        · have h0 : 0 + 1 < (a :: b :: r).length := by
            simp only [List.length_cons]
            omega
          simpa using hall 0 h0
        · intro i hi
          have h2 : (i + 1) + 1 < (a :: b :: r).length := by
            simp only [List.length_cons] at hi ⊢
            omega
          simpa [List.getD_cons_succ] using hall (i + 1) h2

/-- Unfolds a successful `render` into its box-maintenance result and
its dispatch. -/
theorem render_ok_elim (env : Env) (s s2 : BBoxState) (d : Dispatch)
    (h : render env s = .ok (s2, d)) :
    renderUpdate env s = .ok s2 ∧ d = renderDispatch env s2 := by
  unfold render at h
  cases hru : renderUpdate env s with
  | error e => rw [hru] at h; exact Except.noConfusion h
  | ok a =>
    rw [hru] at h
    injection h with h
    injection h with h1 h2
    subst h1
    exact ⟨rfl, h2.symm⟩

/-- Unfolds a successful `renderUpdate` into its two phases. -/
theorem renderUpdate_ok_elim (env : Env) (s s2 : BBoxState)
    (h : renderUpdate env s = .ok s2) :
    ∃ s1, updateBoxPhase1 env s = .ok s1 ∧ s2 = updateBoxPhase2 env s1 := by
  unfold renderUpdate at h
  cases hp : updateBoxPhase1 env s with
  | error e => rw [hp] at h; exact Except.noConfusion h
  | ok s1 =>
    rw [hp] at h
    injection h with h
    exact ⟨s1, rfl, h.symm⟩

/-- A successful `_init` installs the parameter extents, installs the
validated levels, and leaves every cache field untouched. -/
theorem init_ok_fields (s : BBoxState) (ps : Params) (s1 : BBoxState)
    (h : init s ps = .ok s1) :
    s1.xmin = ps.xmin.getD 0 ∧ s1.ymin = ps.ymin.getD 0 ∧
    s1.zmin = ps.zmin.getD 0 ∧ s1.xmax = ps.xmax.getD 0 ∧
    s1.ymax = ps.ymax.getD 0 ∧ s1.zmax = ps.zmax.getD 0 ∧
    s1.memoLevel = s.memoLevel ∧ s1.viewBox = s.viewBox ∧
    s1.objectCoords = s.objectCoords ∧ s1.fixedParams = s.fixedParams ∧
    s1.numChildren = s.numChildren ∧
    (∀ ls, ps.levels = some ls → s1.levels = some ls) := by
  unfold init at h
  split at h
  · rename_i hpl
    injection h with h
    subst h
    simp [initExtents, hpl]
  · rename_i ls hpl
    split at h
    · exact Except.noConfusion h
    · split at h
      · exact Except.noConfusion h
      · injection h with h
        subst h
        refine ⟨rfl, rfl, rfl, rfl, rfl, rfl, rfl, rfl, rfl, rfl, rfl, ?_⟩
        intro ls2 hls2
        rw [hpl] at hls2
        injection hls2 with hls2
        rw [hls2]

/-- The recomputation phase never touches the extents, the levels or the
identity of the node, and preserves the memo level whenever the level is
not 1. -/
theorem updateBoxPhase2_fields (env : Env) (s : BBoxState) :
    (updateBoxPhase2 env s).xmin = s.xmin ∧
    (updateBoxPhase2 env s).ymin = s.ymin ∧
    (updateBoxPhase2 env s).zmin = s.zmin ∧
    (updateBoxPhase2 env s).xmax = s.xmax ∧
    (updateBoxPhase2 env s).ymax = s.ymax ∧
    (updateBoxPhase2 env s).zmax = s.zmax ∧
    (updateBoxPhase2 env s).levels = s.levels ∧
    (updateBoxPhase2 env s).fixedParams = s.fixedParams ∧
    (updateBoxPhase2 env s).numChildren = s.numChildren ∧
    (undefEq s.memoLevel 1 = false →
      (updateBoxPhase2 env s).memoLevel = s.memoLevel) := by
  unfold updateBoxPhase2
  by_cases h : undefLt s.memoLevel 2 = true
  · rw [if_pos h]
    by_cases hg : (env.transform.fixed && undefEq s.memoLevel 1 && !env.instancing) = true
    · rw [if_pos hg]
      refine ⟨rfl, rfl, rfl, rfl, rfl, rfl, rfl, rfl, rfl, fun hne => ?_⟩
      have h1 : undefEq s.memoLevel 1 = true := by
        simp only [Bool.and_eq_true] at hg
        exact hg.1.2
      rw [h1] at hne
      exact Bool.noConfusion hne
    · rw [if_neg hg]
      exact ⟨rfl, rfl, rfl, rfl, rfl, rfl, rfl, rfl, rfl, fun _ => rfl⟩
  · rw [if_neg h]
    exact ⟨rfl, rfl, rfl, rfl, rfl, rfl, rfl, rfl, rfl, fun _ => rfl⟩

/-- When instancing is active the recomputation phase cannot change the
memo level: the freeze guard ends in `!instancing`. -/
theorem updateBoxPhase2_memoLevel_instancing (env : Env) (s : BBoxState)
    (hinst : env.instancing = true) :
    (updateBoxPhase2 env s).memoLevel = s.memoLevel := by
  unfold updateBoxPhase2
  by_cases h : undefLt s.memoLevel 2 = true
  · rw [if_pos h]
    have hg : (env.transform.fixed && undefEq s.memoLevel 1 && !env.instancing) = false := by
      simp [hinst]
    rw [if_neg (by rw [hg]; exact Bool.false_ne_true)]
  · rw [if_neg h]

/-- In LOD mode, with both radius tests passing and the frustum reporting
INSIDE or INTERSECTING, the dispatch is driven by the descending
threshold scan. -/
theorem renderDispatch_lod (env : Env) (s : BBoxState) (ls : List Int)
    (houter : env.outerRadius s.viewBox = true)
    (hinner : env.innerRadius s.viewBox = true)
    (hfr : env.frustum s.viewBox = .insideFrustum ∨
           env.frustum s.viewBox = .intersectFrustum)
    (hlev : s.levels = some ls) :
    (renderDispatch env s).action =
      match lodSelect ls (env.projectedSize s.viewBox) with
      | some i => .renderedChild i
      | none => .renderedNone := by
  rcases hfr with h | h <;> simp [renderDispatch, houter, hinner, h, hlev]

/-! ## Claim theorems -/

/-- Claim C1: with LOD thresholds configured and the frustum reporting
INSIDE or INTERSECTING (after both radius tests pass), the traversal
dispatches exactly the child at the largest index whose threshold is at
most the projected size, and no child at all when the size is below every
threshold; for the documentation thresholds `[10, 200, 400, 600]`, size
250 selects index 1, size 5 selects nothing, size 600 selects index 3. -/
theorem claim1_lod_selection (env : Env) (s s2 : BBoxState) (d : Dispatch)
    (ls : List Int)
    (hr : render env s = .ok (s2, d))
    (houter : env.outerRadius d.tested = true)
    (hinner : env.innerRadius d.tested = true)
    (hfr : env.frustum d.tested = .insideFrustum ∨
           env.frustum d.tested = .intersectFrustum)
    (hlev : s2.levels = some ls) :
    ((∀ i, d.action = .renderedChild i ↔
        i < ls.length ∧ ls.getD i 0 ≤ env.projectedSize d.tested ∧
        ∀ j, j < ls.length → ls.getD j 0 ≤ env.projectedSize d.tested → j ≤ i) ∧
      (d.action = .renderedNone ↔
        ∀ j, j < ls.length → env.projectedSize d.tested < ls.getD j 0)) ∧
    lodSelect [10, 200, 400, 600] 250 = some 1 ∧
    lodSelect [10, 200, 400, 600] 5 = none ∧
    lodSelect [10, 200, 400, 600] 600 = some 3 := by
  refine ⟨?_, by decide, by decide, by decide⟩
  obtain ⟨-, rfl⟩ := render_ok_elim env s s2 d hr
  have hact := renderDispatch_lod env s2 ls houter hinner hfr hlev
  cases hsel : lodSelect ls (env.projectedSize s2.viewBox) with
  | none =>
    rw [hsel] at hact
    have hnone := (lodSelect_eq_none_iff ls (env.projectedSize s2.viewBox)).mp hsel
    constructor
    · intro i
      constructor
      · intro hch
        rw [hact] at hch
        exact absurd hch (by simp)
      · rintro ⟨hi, hle, -⟩
        exact absurd hle (not_le.mpr (hnone i hi))
    · rw [hact]
      exact ⟨fun _ => hnone, fun _ => rfl⟩
  | some k =>
    rw [hsel] at hact
    obtain ⟨hk, hkle, hkmax⟩ :=
      (lodSelect_eq_some_iff ls (env.projectedSize s2.viewBox) k).mp hsel
    constructor
    · intro i
      constructor
      · intro hch
        rw [hact] at hch
        injection hch with hch
        subst hch
        exact ⟨hk, hkle, hkmax⟩
      · rintro ⟨hi, hile, himax⟩
        rw [hact]
        have h1 : i ≤ k := hkmax i hi hile
        have h2 : k ≤ i := himax k hk hkle
        rw [Nat.le_antisymm h2 h1]
    · constructor
      · intro hno
        rw [hact] at hno
        exact absurd hno (by simp)
      · intro hall
        exact absurd hkle (not_le.mpr (hall k hk))

/-- Witness for C1 at a concrete FULL node and environment with
projected size 250. -/
theorem claim1_lod_selection_witness :
    lodSelect [10, 200, 400, 600] 250 = some 1 ∧
    lodSelect [10, 200, 400, 600] 5 = none ∧
    lodSelect [10, 200, 400, 600] 600 = some 3 :=
  (claim1_lod_selection lodEnv fullState fullState
      (renderDispatch lodEnv fullState) [10, 200, 400, 600]
      (by decide) (by decide) (by decide) (Or.inl (by decide)) (by decide)).2

/-- Claim C2: once the memo level is 2 (FULL), a traversal performs no
geometry recomputation at all: whatever the collaborators do, every
subsequent traversal returns the node state completely unchanged, the
visibility tests consume exactly the frozen cached box, and this holds
for arbitrarily many traversals (nothing but a setter touches the memo
level). -/
theorem claim2_full_state_frozen (s : BBoxState) (envs : List Env)
    (h : s.memoLevel = some 2) :
    (∀ env : Env, render env s = .ok (s, renderDispatch env s) ∧
        (renderDispatch env s).tested = s.viewBox) ∧
    renderIter s envs = .ok s := by
  have hp1 : ∀ env : Env, updateBoxPhase1 env s = .ok s := by
    intro env
    unfold updateBoxPhase1
    rw [if_neg (by rw [h]; decide)]
  have hp2 : ∀ env : Env, updateBoxPhase2 env s = s := by
    intro env
    unfold updateBoxPhase2
    rw [if_neg (by rw [h]; decide)]
  have hstep : ∀ env : Env, renderUpdate env s = .ok s := by
    intro env
    unfold renderUpdate
    rw [hp1 env]
    exact congrArg Except.ok (hp2 env)
  have hrender : ∀ env : Env, render env s = .ok (s, renderDispatch env s) := by
    intro env
    unfold render
    rw [hstep env]
  refine ⟨fun env => ⟨hrender env, rfl⟩, ?_⟩
  induction envs with
  | nil => rfl
  | cons e rest ih =>
    rw [renderIter, hrender e]
    exact ih

/-- Witness for C2: a concrete FULL node is unchanged by three
traversals under three different environments. -/
theorem claim2_full_state_frozen_witness :
    renderIter fullState [lodEnv, stagingEnv, idInstancingEnv] = .ok fullState :=
  (claim2_full_state_frozen fullState [lodEnv, stagingEnv, idInstancingEnv] rfl).2

/-- Counterexample to claim C3: the identity-transform path is not
guarded by the instancing check.  With fixed parameters, memo level 0, an
identity transform and instancing active, one traversal ends with the
cache state FULL (memo level 2). -/
theorem claim3_instancing_counterexample :
    idInstancingEnv.instancing = true ∧
    renderUpdate idInstancingEnv resetFixedState = .ok fullViaIdentity ∧
    fullViaIdentity.memoLevel = some 2 :=
  ⟨rfl, by decide, rfl⟩

/-- Claim C3 amended: the instancing check guards only the
PARTIAL-to-FULL transition.  When instancing is active during a
traversal that ends at memo level 2, either the node already was at
level 2, or the traversal took the identity-transform path (memo
level 0 with an identity transform), which enters FULL without
consulting instancing. -/
theorem claim3_instancing_guard_amended (env : Env) (s s2 : BBoxState)
    (hinst : env.instancing = true)
    (hr : renderUpdate env s = .ok s2)
    (h2 : s2.memoLevel = some 2) :
    s.memoLevel = some 2 ∨
    (s.memoLevel = some 0 ∧ env.transform.identity = true) := by
  obtain ⟨s1, hp1, hs2⟩ := renderUpdate_ok_elim env s s2 hr
  subst hs2
  rw [updateBoxPhase2_memoLevel_instancing env s1 hinst] at h2
  unfold updateBoxPhase1 at hp1
  split at hp1
  · rename_i h0
    split at hp1
    · exact Except.noConfusion hp1
    · rename_i sInit hini
      split at hp1
      · -- non-identity: the corner path leaves the memo level at 0 or 1
        exfalso
        injection hp1 with hp1
        have hm1 : s1.memoLevel = sInit.memoLevel := by rw [← hp1]
        have hmI : sInit.memoLevel = some 0 ∨ sInit.memoLevel = some 1 := by
          split at hini
          · obtain ⟨-, -, -, -, -, -, hmem, -⟩ :=
              init_ok_fields s env.getParams sInit hini
            exact Or.inl (by rw [hmem, (undefEq_true_iff s.memoLevel 0).mp h0])
          · injection hini with hini
            exact Or.inr (by rw [← hini])
        rcases hmI with hm | hm
        · rw [hm1, hm] at h2
          injection h2 with h2
          exact absurd h2 (by decide)
        · rw [hm1, hm] at h2
          injection h2 with h2
          exact absurd h2 (by decide)
      · rename_i hnid
        have hid : env.transform.identity = true := by
          cases hb : env.transform.identity with
          | true => rfl
          | false => exact absurd (by rw [hb]; decide) hnid
        exact Or.inr ⟨(undefEq_true_iff s.memoLevel 0).mp h0, hid⟩
  · rename_i h0
    injection hp1 with hp1
    rw [← hp1] at h2
    exact Or.inl h2

/-- Witness for the amended C3: starting from memo level 0 under an
identity transform with instancing active, the traversal ends FULL and
the right-hand disjunct holds. -/
theorem claim3_instancing_guard_amended_witness :
    resetFixedState.memoLevel = some 2 ∨
    (resetFixedState.memoLevel = some 0 ∧ idInstancingEnv.transform.identity = true) :=
  claim3_instancing_guard_amended idInstancingEnv resetFixedState fullViaIdentity
    rfl (by decide) rfl

/-- Claim C4: after construction the memo level field is `undefined`
(`none`), not 0; the JavaScript comparisons `undefined == 0` and
`undefined < 2` are both false, so a traversal of a fresh node skips
both the initialization and the recomputation branch, computes no box,
leaves the state untouched for arbitrarily many traversals whatever the
collaborators do, and hands the null view box to the locality test;
memo level 0 is first assigned by a setter (or `setBoundary`). -/
theorem claim4_fresh_memo_undefined (fixed : Bool) (ps : Params) (n : Nat)
    (s : BBoxState) (hc : newBoundingBox fixed ps n = .ok s) :
    s.memoLevel = none ∧
    undefEq s.memoLevel 0 = false ∧
    undefLt s.memoLevel 2 = false ∧
    s.viewBox = none ∧
    (∀ env : Env, render env s = .ok (s, renderDispatch env s) ∧
        (renderDispatch env s).tested = none) ∧
    (∀ envs : List Env, renderIter s envs = .ok s) ∧
    (∀ v : Int, (setXMin s v).memoLevel = some 0) ∧
    (∀ b : Boundary, (setBoundary s b).memoLevel = some 0) := by
  have hbase : s.memoLevel = none ∧ s.viewBox = none := by
    unfold newBoundingBox at hc
    cases hf : fixed with
    | false =>
      rw [hf] at hc
      rw [if_neg (by decide)] at hc
      injection hc with hc
      rw [← hc]
      exact ⟨rfl, rfl⟩
    | true =>
      rw [hf] at hc
      rw [if_pos rfl] at hc
      obtain ⟨-, -, -, -, -, -, hm, hv, -⟩ :=
        init_ok_fields (initialState true n) ps s hc
      exact ⟨hm, hv⟩
  obtain ⟨hm, hv⟩ := hbase
  have hp1 : ∀ env : Env, updateBoxPhase1 env s = .ok s := by
    intro env
    unfold updateBoxPhase1
    rw [if_neg (by rw [hm]; decide)]
  have hp2 : ∀ env : Env, updateBoxPhase2 env s = s := by
    intro env
    unfold updateBoxPhase2
    rw [if_neg (by rw [hm]; decide)]
  have hstep : ∀ env : Env, renderUpdate env s = .ok s := by
    intro env
    unfold renderUpdate
    rw [hp1 env]
    exact congrArg Except.ok (hp2 env)
  have hrender : ∀ env : Env, render env s = .ok (s, renderDispatch env s) := by
    intro env
    unfold render
    rw [hstep env]
  refine ⟨hm, by rw [hm]; rfl, by rw [hm]; rfl, hv,
    fun env => ⟨hrender env, hv⟩, ?_, fun v => rfl, fun b => rfl⟩
  intro envs
  induction envs with
  | nil => rfl
  | cons e rest ih =>
    rw [renderIter, hrender e]
    exact ih

/-- Witness for C4 at a concrete fixed-parameter construction with two
children and thresholds `[5, 10]`. -/
theorem claim4_fresh_memo_undefined_witness :
    renderIter freshState [lodEnv, dynMovingEnv] = .ok freshState ∧
    (setXMin freshState 7).memoLevel = some 0 := by
  have h := claim4_fresh_memo_undefined true { levels := some [5, 10] } 2 freshState
    (by decide)
  exact ⟨h.2.2.2.2.2.1 [lodEnv, dynMovingEnv], h.2.2.2.2.2.2.1 7⟩

/-- Claim C5: each of the six per-extent setters and `setBoundary`
unconditionally resets the memo level to 0 — whatever the previous state
and whether the stored value changed — installs the value, and performs
no geometry computation (the cached corners and the cached box are left
untouched). -/
theorem claim5_setters_reset_memo (s : BBoxState) (v : Int) (b : Boundary) :
    ((setXMin s v).memoLevel = some 0 ∧ (setXMin s v).xmin = v ∧
      (setXMin s v).viewBox = s.viewBox ∧ (setXMin s v).objectCoords = s.objectCoords) ∧
    ((setYMin s v).memoLevel = some 0 ∧ (setYMin s v).ymin = v ∧
      (setYMin s v).viewBox = s.viewBox ∧ (setYMin s v).objectCoords = s.objectCoords) ∧
    ((setZMin s v).memoLevel = some 0 ∧ (setZMin s v).zmin = v ∧
      (setZMin s v).viewBox = s.viewBox ∧ (setZMin s v).objectCoords = s.objectCoords) ∧
    ((setXMax s v).memoLevel = some 0 ∧ (setXMax s v).xmax = v ∧
      (setXMax s v).viewBox = s.viewBox ∧ (setXMax s v).objectCoords = s.objectCoords) ∧
    ((setYMax s v).memoLevel = some 0 ∧ (setYMax s v).ymax = v ∧
      (setYMax s v).viewBox = s.viewBox ∧ (setYMax s v).objectCoords = s.objectCoords) ∧
    ((setZMax s v).memoLevel = some 0 ∧ (setZMax s v).zmax = v ∧
      (setZMax s v).viewBox = s.viewBox ∧ (setZMax s v).objectCoords = s.objectCoords) ∧
    ((setBoundary s b).memoLevel = some 0 ∧
      (setBoundary s b).xmin = b.xmin.getD 0 ∧ (setBoundary s b).ymin = b.ymin.getD 0 ∧
      (setBoundary s b).zmin = b.zmin.getD 0 ∧ (setBoundary s b).xmax = b.xmax.getD 0 ∧
      (setBoundary s b).ymax = b.ymax.getD 0 ∧ (setBoundary s b).zmax = b.zmax.getD 0 ∧
      (setBoundary s b).viewBox = s.viewBox ∧
      (setBoundary s b).objectCoords = s.objectCoords) :=
  ⟨⟨rfl, rfl, rfl, rfl⟩, ⟨rfl, rfl, rfl, rfl⟩, ⟨rfl, rfl, rfl, rfl⟩,
   ⟨rfl, rfl, rfl, rfl⟩, ⟨rfl, rfl, rfl, rfl⟩, ⟨rfl, rfl, rfl, rfl⟩,
   ⟨rfl, rfl, rfl, rfl, rfl, rfl, rfl, rfl, rfl⟩⟩

/-- Claim C7: when the world box fails the outer (staging) radius test,
nothing is traversed at all, regardless of the inner-radius test, the
frustum classification or the LOD configuration. -/
theorem claim7_outer_radius_skip (env : Env) (s s2 : BBoxState) (d : Dispatch)
    (hr : render env s = .ok (s2, d))
    (houter : env.outerRadius d.tested = false) :
    d.action = .renderedNone := by
  obtain ⟨-, rfl⟩ := render_ok_elim env s s2 d hr
  simp only [renderDispatch] at houter ⊢
  simp [houter]

/-- Witness for C7: a concrete traversal whose outer-radius test fails
renders nothing. -/
theorem claim7_outer_radius_skip_witness :
    (renderDispatch outerFailEnv fullState).action = .renderedNone :=
  claim7_outer_radius_skip outerFailEnv fullState fullState
    (renderDispatch outerFailEnv fullState) (by decide) (by decide)

/-- Claim C8: when the world box passes the outer-radius test but fails
the inner-radius test, all children are traversed unconditionally — the
frustum test and the LOD selection are bypassed. -/
theorem claim8_staging_traverses_all (env : Env) (s s2 : BBoxState) (d : Dispatch)
    (hr : render env s = .ok (s2, d))
    (houter : env.outerRadius d.tested = true)
    (hinner : env.innerRadius d.tested = false) :
    d.action = .renderedAll := by
  obtain ⟨-, rfl⟩ := render_ok_elim env s s2 d hr
  simp only [renderDispatch] at houter hinner ⊢
  simp [houter, hinner]

/-- Witness for C8: with the frustum reporting OUTSIDE and LOD
thresholds configured, a concrete traversal in the staging band still
renders all children. -/
theorem claim8_staging_traverses_all_witness :
    (renderDispatch stagingEnv fullState).action = .renderedAll ∧
    stagingEnv.frustum (renderDispatch stagingEnv fullState).tested = .outsideFrustum ∧
    fullState.levels = some [10, 200, 400, 600] :=
  ⟨claim8_staging_traverses_all stagingEnv fullState fullState
      (renderDispatch stagingEnv fullState) (by decide) (by decide) (by decide),
   by decide, by decide⟩

/-- Counterexample to claim C6: a dynamic-parameter node under an
identity transform jumps to memo level 2 on its first traversal, after
which the configuration is never re-read — a second traversal whose
dynamic parameter source gives `xmin = 5` leaves the node state
completely unchanged, still holding `xmin = 1` from the first
traversal. -/
theorem claim6_dynamic_reread_counterexample :
    resetDynState.fixedParams = false ∧
    resetDynState.memoLevel = some 0 ∧
    dynIdEnvA.getParams.xmin = some 1 ∧
    dynIdEnvB.getParams.xmin = some 5 ∧
    renderUpdate dynIdEnvA resetDynState = .ok dynFrozenState ∧
    renderUpdate dynIdEnvB dynFrozenState = .ok dynFrozenState ∧
    dynFrozenState.xmin = 1 :=
  ⟨rfl, rfl, rfl, rfl, by decide, by decide, rfl⟩

/-- Claim C6 amended: a dynamic-parameter node re-reads its
configuration exactly on the traversals that start at memo level 0.  On
such a traversal the extents and levels are re-derived from the dynamic
parameter source, and under a non-identity transform the memo level
stays 0 (so the re-derivation does recur every traversal); under an
identity transform the node jumps to memo level 2 and stops re-reading
(see the counterexample). -/
theorem claim6_dynamic_reread_amended (env : Env) (s s2 : BBoxState)
    (hdyn : s.fixedParams = false)
    (h0 : s.memoLevel = some 0)
    (hr : renderUpdate env s = .ok s2) :
    s2.xmin = env.getParams.xmin.getD 0 ∧
    s2.ymin = env.getParams.ymin.getD 0 ∧
    s2.zmin = env.getParams.zmin.getD 0 ∧
    s2.xmax = env.getParams.xmax.getD 0 ∧
    s2.ymax = env.getParams.ymax.getD 0 ∧
    s2.zmax = env.getParams.zmax.getD 0 ∧
    (∀ ls, env.getParams.levels = some ls → s2.levels = some ls) ∧
    (env.transform.identity = false → s2.memoLevel = some 0) := by
  obtain ⟨s1, hp1, hs2⟩ := renderUpdate_ok_elim env s s2 hr
  subst hs2
  obtain ⟨px1, py1, pz1, px2, py2, pz2, plv, -, -, pm⟩ :=
    updateBoxPhase2_fields env s1
  unfold updateBoxPhase1 at hp1
  rw [if_pos ((undefEq_true_iff s.memoLevel 0).mpr h0)] at hp1
  rw [if_pos (show (!s.fixedParams) = true by rw [hdyn]; decide)] at hp1
  split at hp1
  · exact Except.noConfusion hp1
  · rename_i sInit hini
    obtain ⟨hx1, hy1, hz1, hx2, hy2, hz2, hmI, -, -, -, -, hlv⟩ :=
      init_ok_fields s env.getParams sInit hini
    split at hp1
    · -- non-identity: corners cached, memo level untouched
      injection hp1 with hp1
      have f1 : s1.xmin = sInit.xmin := by rw [← hp1]
      have f2 : s1.ymin = sInit.ymin := by rw [← hp1]
      have f3 : s1.zmin = sInit.zmin := by rw [← hp1]
      have f4 : s1.xmax = sInit.xmax := by rw [← hp1]
      have f5 : s1.ymax = sInit.ymax := by rw [← hp1]
      have f6 : s1.zmax = sInit.zmax := by rw [← hp1]
      have flv : s1.levels = sInit.levels := by rw [← hp1]
      have fm : s1.memoLevel = sInit.memoLevel := by rw [← hp1]
      have hm0 : s1.memoLevel = some 0 := by rw [fm, hmI, h0]
      refine ⟨?_, ?_, ?_, ?_, ?_, ?_, ?_, ?_⟩
      · rw [px1, f1, hx1]
      · rw [py1, f2, hy1]
      · rw [pz1, f3, hz1]
      · rw [px2, f4, hx2]
      · rw [py2, f5, hy2]
      · rw [pz2, f6, hz2]
      · intro ls hls
        rw [plv, flv]
        exact hlv ls hls
      · intro _
        rw [pm (by rw [hm0]; decide), hm0]
    · -- identity: box set from the extents, memo level jumps to 2
      rename_i hnid
      injection hp1 with hp1
      have f1 : s1.xmin = sInit.xmin := by rw [← hp1]
      have f2 : s1.ymin = sInit.ymin := by rw [← hp1]
      have f3 : s1.zmin = sInit.zmin := by rw [← hp1]
      have f4 : s1.xmax = sInit.xmax := by rw [← hp1]
      have f5 : s1.ymax = sInit.ymax := by rw [← hp1]
      have f6 : s1.zmax = sInit.zmax := by rw [← hp1]
      have flv : s1.levels = sInit.levels := by rw [← hp1]
      refine ⟨?_, ?_, ?_, ?_, ?_, ?_, ?_, ?_⟩
      · rw [px1, f1, hx1]
      · rw [py1, f2, hy1]
      · rw [pz1, f3, hz1]
      · rw [px2, f4, hx2]
      · rw [py2, f5, hy2]
      · rw [pz2, f6, hz2]
      · intro ls hls
        rw [plv, flv]
        exact hlv ls hls
      · intro hcontra
        have hid : env.transform.identity = true := by
          cases hb : env.transform.identity with
          | true => rfl
          | false => exact absurd (by rw [hb]; decide) hnid
        rw [hid] at hcontra
        exact Bool.noConfusion hcontra

/-- Witness for the amended C6: a concrete dynamic node at memo level 0
under a non-identity transform picks up `xmin = 5` from the parameter
source and stays at memo level 0. -/
theorem claim6_dynamic_reread_amended_witness :
    dynRereadState.xmin = dynMovingEnv.getParams.xmin.getD 0 ∧
    dynRereadState.memoLevel = some 0 := by
  have h := claim6_dynamic_reread_amended dynMovingEnv resetDynState dynRereadState
    rfl rfl (by decide)
  exact ⟨h.1, h.2.2.2.2.2.2.2 rfl⟩

/-- Claim C9 (spec-modelled fatality: `fatalError` is not part of this
source file and is embedded, per the spec, as an aborting
`Except.error`): whenever configuration with a `levels` list is
applied — via `_init` at construction of a fixed-parameter node, or
during a traversal of a dynamic-parameter node at memo level 0 — a
length different from the child count raises the fatal ConfigMismatch
error and produces no state (in particular the levels are not
installed), while a matching length never raises ConfigMismatch from
this check. -/
theorem claim9_levels_length_mismatch (ps : Params) (ls : List Int) (n : Nat)
    (hl : ps.levels = some ls) :
    (ls.length ≠ n →
      (∀ s : BBoxState, s.numChildren = n → init s ps = .error .configMismatch) ∧
      newBoundingBox true ps n = .error .configMismatch ∧
      (∀ env : Env, ∀ s : BBoxState, env.getParams = ps → s.numChildren = n →
        s.fixedParams = false → s.memoLevel = some 0 →
        render env s = .error .configMismatch)) ∧
    (ls.length = n → ∀ s : BBoxState, s.numChildren = n →
      init s ps ≠ .error .configMismatch) := by
  constructor
  · intro hne
    have hinit : ∀ s : BBoxState, s.numChildren = n →
        init s ps = .error .configMismatch := by
      intro s hn
      simp only [init, hl]
      rw [hn]
      rw [if_pos hne]
    refine ⟨hinit, ?_, ?_⟩
    · unfold newBoundingBox
      rw [if_pos rfl]
      exact hinit (initialState true n) rfl
    · intro env s hps hn hdyn h0
      have hi : init s env.getParams = .error .configMismatch := by
        rw [hps]
        exact hinit s hn
      unfold render renderUpdate updateBoxPhase1
      rw [if_pos ((undefEq_true_iff s.memoLevel 0).mpr h0)]
      rw [if_pos (show (!s.fixedParams) = true by rw [hdyn]; decide)]
      rw [hi]
  · intro heq s hn
    simp only [init, hl]
    rw [hn]
    rw [if_neg (fun hcon => hcon heq)]
    by_cases hord : (!levelsOrdered ls) = true
    · rw [if_pos hord]
      intro hcontra
      injection hcontra with hcontra
      exact ConfigError.noConfusion hcontra
    · rw [if_neg hord]
      intro hcontra
      exact Except.noConfusion hcontra

/-- Witness for C9: `levels = [10, 20]` against three children fails
with ConfigMismatch at construction; against two children this check
raises nothing. -/
theorem claim9_levels_length_mismatch_witness :
    newBoundingBox true { levels := some [10, 20] } 3 = .error .configMismatch ∧
    init (initialState true 2) { levels := some [10, 20] } ≠ .error .configMismatch := by
  have h3 := claim9_levels_length_mismatch { levels := some [10, 20] } [10, 20] 3 rfl
  have h2 := claim9_levels_length_mismatch { levels := some [10, 20] } [10, 20] 2 rfl
  exact ⟨(h3.1 (by decide)).2.1, h2.2 rfl (initialState true 2) rfl⟩

/-- Counterexample to claim C10: a disordered `levels` list whose length
also differs from the child count raises ConfigMismatch, not
ConfigOrder, because the length check runs first — `[10, 10]` against
three children has the non-increasing adjacent pair `10 >= 10`, yet no
ConfigOrder error is raised. -/
theorem claim10_levels_order_counterexample :
    List.getD [(10 : Int), 10] 1 0 ≤ List.getD [(10 : Int), 10] 0 0 ∧
    init (initialState true 3) { levels := some [10, 10] } ≠ .error .configOrder ∧
    init (initialState true 3) { levels := some [10, 10] } = .error .configMismatch :=
  ⟨by decide, by decide, by decide⟩

/-- Claim C10 amended (spec-modelled fatality, as for C9): when the
`levels` length matches the child count, any adjacent pair that is not
strictly increasing raises the fatal ConfigOrder error (e.g.
`[10, 10, 20]` and `[20, 10, 30]` against three children), and a
strictly ascending list of the right length is accepted and stored;
when the length does not match, ConfigMismatch preempts this check (see
the counterexample). -/
theorem claim10_levels_order_amended (s : BBoxState) (ps : Params) (ls : List Int)
    (hl : ps.levels = some ls) (hlen : ls.length = s.numChildren) :
    ((∃ i, i + 1 < ls.length ∧ ls.getD (i + 1) 0 ≤ ls.getD i 0) →
      init s ps = .error .configOrder) ∧
    ((∀ i, i + 1 < ls.length → ls.getD i 0 < ls.getD (i + 1) 0) →
      init s ps = .ok { initExtents s ps with levels := some ls }) ∧
    init (initialState true 3) { levels := some [10, 10, 20] } = .error .configOrder ∧
    init (initialState true 3) { levels := some [20, 10, 30] } = .error .configOrder := by
  refine ⟨?_, ?_, by decide, by decide⟩
  · rintro ⟨i, hi, hle⟩
    have hord : levelsOrdered ls = false := by
      cases hb : levelsOrdered ls with
      | false => rfl
      | true => exact absurd hle (not_le.mpr ((levelsOrdered_iff ls).mp hb i hi))
    simp only [init, hl]
    rw [if_neg (fun hcon => hcon hlen)]
    rw [if_pos (by rw [hord]; decide)]
  · intro hasc
    have hord : levelsOrdered ls = true := (levelsOrdered_iff ls).mpr hasc
    simp only [init, hl]
    rw [if_neg (fun hcon => hcon hlen)]
    rw [if_neg (by rw [hord]; decide)]

/-- Witness for the amended C10: the ascending list `[10, 20, 30]`
against three children is accepted and stored. -/
theorem claim10_levels_order_amended_witness :
    init (initialState true 3) { levels := some [10, 20, 30] } =
      .ok { initExtents (initialState true 3) { levels := some [10, 20, 30] } with
            levels := some [10, 20, 30] } :=
  (claim10_levels_order_amended (initialState true 3)
      { levels := some [10, 20, 30] } [10, 20, 30] rfl rfl).2.1
    (by
      intro i hi
      have h3 : i < 2 := by
        simp only [List.length_cons, List.length_nil] at hi
        omega
      match i, h3 with
      | 0, _ => decide
      | 1, _ => decide
      | n + 2, h => exact absurd h (by omega))

end SceneJS
